import Mathlib

/-!
Shallow embedding of the dydx-alerts risk/alert core
(`backend/app/services/risk_calculator.py`,
`backend/app/services/alert_rule_evaluator.py`,
`backend/app/services/alert_engine.py`,
`backend/app/services/monitor_service.py`) together with theorems that
settle the specification claims about it.

Python `Decimal` values are modelled as the type `Dec` below (a finite
rational or an infinity sentinel); plain finite decimals/floats are
modelled as `ℚ`.  Python dictionaries whose values are numeric strings
are modelled as association lists / structures with `Option ℚ` fields
(a missing or unparseable field is `none`; for such string-valued fields
Python's `or` between two lookups is `none`-coalescing, which `Option.orElse`
reproduces).  Fallible code returns `Option`/`Except`.
-/

namespace DydxAlerts

/-- A Python `Decimal` value as used by the risk calculator: a finite
rational or one of the infinity sentinels (`Decimal("inf")`,
`Decimal("-inf")`). -/
inductive Dec where
  | fin (q : ℚ)
  | posInf
  | negInf
deriving DecidableEq, Repr

/-- `RiskMetrics.to_dict`'s inner helper `safe_float`: convert a `Decimal`
to a JSON-safe number, returning `None` for either infinity. -/
def safeFloat : Dec → Option ℚ
  | .fin q => some q
  | .posInf => none
  | .negInf => none

/-- `RiskCalculator.calculate_margin_ratio`: `equity / maintenance_requirement`,
or infinity if the maintenance requirement is `0`. -/
def calculateMarginRatio (equity maintenanceRequirement : ℚ) : Dec :=
  if maintenanceRequirement = 0 then .posInf
  else .fin (equity / maintenanceRequirement)

/-- `RiskCalculator.calculate_liquidation_distance`:
`(margin_ratio - 1) * 100`, infinity propagating. -/
def calculateLiquidationDistance : Dec → Dec
  | .posInf => .posInf
  | .fin q => .fin ((q - 1) * 100)
  | .negInf => .negInf

/-- One entry of the per-market `position_metrics` dictionary built by
`RiskCalculator.calculate_risk_metrics` (the fields consumed by the alert
paths; every stored value went through `_safe_float`, hence `Option ℚ`). -/
structure PosMetrics where
  margin_mode : Option String
  size : Option ℚ
  entry_price : Option ℚ
  oracle_price : Option ℚ
  position_value : Option ℚ
  unrealized_pnl : Option ℚ
  unrealized_pnl_percent : Option ℚ
  leverage : Option ℚ
  liquidation_distance_percent : Option ℚ
  isolated_liquidation_price : Option ℚ
  cross_liquidation_price : Option ℚ
  fillable_price : Option ℚ
  protocol_liquidation_price : Option ℚ
deriving DecidableEq, Repr

/-- The raw per-market position dictionary of one subaccount snapshot
(the exchange fields the calculator reads, pre-parsed: a field that is
absent or fails `Decimal(str(...))` is `none`).  `side` stands for the
`side`/`positionSide` pair, `entryPrice` for `entryPrice`/`averageEntryPrice`,
`liquidationPrice` for `liquidationPrice`/`estimatedLiquidationPrice`/
`liquidation_price`, and `notionalField` for the
`openNotional`/`positionValue`/`notional`/`notionalValue` chain. -/
structure RawPosition where
  size : Option ℚ
  side : Option String
  isLong : Option Bool
  isShort : Option Bool
  entryPrice : Option ℚ
  oraclePrice : Option ℚ
  indexPrice : Option ℚ
  markPrice : Option ℚ
  price : Option ℚ
  notionalField : Option ℚ
  maintenanceMarginFraction : Option ℚ
  maintenanceMarginFractionPpm : Option ℚ
  initialMarginFraction : Option ℚ
  maintenanceMarginRequirement : Option ℚ
  initialMarginRequirement : Option ℚ
  liquidationPrice : Option ℚ
  unrealizedPnl : Option ℚ
  marginMode : Option String
deriving DecidableEq, Repr

/-- The embedded `RiskMetrics` object (`risk_calculator.py` lines 8-33):
account-level decimals plus the raw positions echo and the per-market
metrics map. -/
structure RiskMetricsE where
  equity : ℚ
  maintenance_requirement : ℚ
  initial_requirement : ℚ
  margin_ratio : Dec
  liquidation_distance_percent : Dec
  free_collateral : ℚ
  positions : List (String × RawPosition)
  position_metrics : List (String × PosMetrics)
deriving DecidableEq, Repr

/-- The account-level slice of `RiskMetrics.to_dict` (each numeric field
passed through `safe_float`, so an infinity serializes as `null`). -/
structure RiskMetricsDict where
  equity : Option ℚ
  maintenance_requirement : Option ℚ
  initial_requirement : Option ℚ
  margin_ratio : Option ℚ
  liquidation_distance_percent : Option ℚ
  free_collateral : Option ℚ
deriving DecidableEq, Repr

/-- `RiskMetrics.to_dict` on the account-level numeric fields. -/
def RiskMetricsE.toDict (m : RiskMetricsE) : RiskMetricsDict :=
  { equity := safeFloat (.fin m.equity)
    maintenance_requirement := safeFloat (.fin m.maintenance_requirement)
    initial_requirement := safeFloat (.fin m.initial_requirement)
    margin_ratio := safeFloat m.margin_ratio
    liquidation_distance_percent := safeFloat m.liquidation_distance_percent
    free_collateral := safeFloat (.fin m.free_collateral) }

/-- `RiskCalculator.calculate_isolated_liquidation_price`:
`p' = (e - s*p) / (|s|*MMF - s)`, `None` on a missing oracle price or a
zero denominator. -/
def calculateIsolatedLiquidationPrice (equity size : ℚ) (oraclePrice : Option ℚ)
    (maintenanceFraction : ℚ) : Option ℚ :=
  match oraclePrice with
  | none => none
  | some p =>
    let denominator := |size| * maintenanceFraction - size
    if denominator = 0 then none
    else some ((equity - size * p) / denominator)

/-- `RiskCalculator.calculate_cross_liquidation_price`:
`p' = (e - s*p - MMR_other) / (|s|*MMF - s)`. -/
def calculateCrossLiquidationPrice (equity size : ℚ) (oraclePrice : Option ℚ)
    (maintenanceFraction otherRequirements : ℚ) : Option ℚ :=
  match oraclePrice with
  | none => none
  | some p =>
    let denominator := |size| * maintenanceFraction - size
    if denominator = 0 then none
    else some ((equity - size * p - otherRequirements) / denominator)

/-- Comparison of a (possibly infinite) actual value against a finite
threshold, as Python's `<` on floats behaves once a `Decimal("inf")` has
been converted by `float(...)`. -/
def Dec.ltQ : Dec → ℚ → Bool
  | .fin a, t => decide (a < t)
  | .posInf, _ => false
  | .negInf, _ => true

/-- `<=` against a finite threshold, infinities as in Python floats. -/
def Dec.leQ : Dec → ℚ → Bool
  | .fin a, t => decide (a ≤ t)
  | .posInf, _ => false
  | .negInf, _ => true

/-- `>` against a finite threshold, infinities as in Python floats. -/
def Dec.gtQ : Dec → ℚ → Bool
  | .fin a, t => decide (t < a)
  | .posInf, _ => true
  | .negInf, _ => false

/-- `>=` against a finite threshold, infinities as in Python floats. -/
def Dec.geQ : Dec → ℚ → Bool
  | .fin a, t => decide (t ≤ a)
  | .posInf, _ => true
  | .negInf, _ => false

/-- `abs(actual - threshold) < 0.001` against a finite threshold; an
infinite actual value gives an infinite difference, hence `false`. -/
def Dec.eqTol : Dec → ℚ → Bool
  | .fin a, t => decide (|a - t| < 1 / 1000)
  | .posInf, _ => false
  | .negInf, _ => false

/-- `AlertRuleEvaluator._compare_values` (lines 139-153): dispatch on the
comparison operator string; `==` uses the absolute tolerance `0.001`;
an unknown operator yields `False`. -/
def compareValues (actual : Dec) (threshold : ℚ) (comparison : String) : Bool :=
  if comparison = "<" then actual.ltQ threshold
  else if comparison = "<=" then actual.leQ threshold
  else if comparison = ">" then actual.gtQ threshold
  else if comparison = ">=" then actual.geQ threshold
  else if comparison = "==" then actual.eqTol threshold
  else false

/-- C2: for an account snapshot with zero total maintenance requirement,
`calculate_margin_ratio` returns the infinite sentinel,
`calculate_liquidation_distance` of that sentinel is again the infinite
sentinel, and `to_dict` serializes both `margin_ratio` and
`liquidation_distance_percent` as `None`, never a numeric infinity. -/
theorem zero_maintenance_round_trips_as_null
    (e init free : ℚ) (m : ℚ) (hm : m = 0)
    (ps : List (String × RawPosition)) (pm : List (String × PosMetrics)) :
    calculateMarginRatio e m = Dec.posInf ∧
    calculateLiquidationDistance (calculateMarginRatio e m) = Dec.posInf ∧
    (RiskMetricsE.toDict
      ⟨e, m, init, calculateMarginRatio e m,
        calculateLiquidationDistance (calculateMarginRatio e m), free, ps, pm⟩).margin_ratio
      = none ∧
    (RiskMetricsE.toDict
      ⟨e, m, init, calculateMarginRatio e m,
        calculateLiquidationDistance (calculateMarginRatio e m), free, ps, pm⟩).liquidation_distance_percent
      = none := by
  subst hm
  simp [calculateMarginRatio, calculateLiquidationDistance, RiskMetricsE.toDict, safeFloat]

/-- Closed witness for `zero_maintenance_round_trips_as_null`. -/
theorem zero_maintenance_round_trips_as_null_witness :
    calculateMarginRatio 1000 0 = Dec.posInf ∧
    calculateLiquidationDistance (calculateMarginRatio 1000 0) = Dec.posInf ∧
    (RiskMetricsE.toDict
      ⟨1000, 0, 0, calculateMarginRatio 1000 0,
        calculateLiquidationDistance (calculateMarginRatio 1000 0), 0, [], []⟩).margin_ratio
      = none ∧
    (RiskMetricsE.toDict
      ⟨1000, 0, 0, calculateMarginRatio 1000 0,
        calculateLiquidationDistance (calculateMarginRatio 1000 0), 0, [], []⟩).liquidation_distance_percent
      = none :=
  zero_maintenance_round_trips_as_null 1000 0 0 0 rfl [] []

/-- C3: `calculate_isolated_liquidation_price` computes
`(e - s*p) / (|s|*MMF - s)` and is `None` exactly when the denominator is
`0`; on the documented example (equity 1000, short 3, oracle 3000,
MMF 0.05) it returns `200000/63 ≈ 3174.603` — within `1e-5` relative
tolerance of `3174.603` — and at that price the recomputed equity equals
the recomputed maintenance requirement. -/
theorem isolated_liquidation_price_spec :
    (∀ e s p mf : ℚ,
      calculateIsolatedLiquidationPrice e s (some p) mf =
        if |s| * mf - s = 0 then none else some ((e - s * p) / (|s| * mf - s))) ∧
    calculateIsolatedLiquidationPrice 1000 (-3) (some 3000) (1 / 20)
      = some (200000 / 63) ∧
    |200000 / 63 - 3174603 / 1000| / (3174603 / 1000) < (1 : ℚ) / 100000 ∧
    1000 + (-3 : ℚ) * (200000 / 63 - 3000) = |(-3 : ℚ)| * (200000 / 63) * (1 / 20) := by
  refine ⟨fun e s p mf => rfl, ?_, by norm_num [abs], by norm_num [abs]⟩
  norm_num [calculateIsolatedLiquidationPrice, abs]

/-- C8: `_compare_values` with `==` is true iff `|actual - threshold| < 0.001`;
`<`, `<=`, `>`, `>=` are the standard numeric comparisons; any unknown
operator string yields `false` (total function, never raises). -/
theorem compare_values_spec (a t : ℚ) :
    (compareValues (.fin a) t "==" = true ↔ |a - t| < 1 / 1000) ∧
    (compareValues (.fin a) t "<" = true ↔ a < t) ∧
    (compareValues (.fin a) t "<=" = true ↔ a ≤ t) ∧
    (compareValues (.fin a) t ">" = true ↔ a > t) ∧
    (compareValues (.fin a) t ">=" = true ↔ a ≥ t) ∧
    (∀ s : String, s ≠ "<" → s ≠ "<=" → s ≠ ">" → s ≠ ">=" → s ≠ "==" →
      compareValues (.fin a) t s = false) := by
  refine ⟨?_, ?_, ?_, ?_, ?_, ?_⟩
  · simp [compareValues, Dec.eqTol]
  · simp [compareValues, Dec.ltQ]
  · simp [compareValues, Dec.leQ]
  · simp [compareValues, Dec.gtQ]
  · simp [compareValues, Dec.geQ]
  · intro s h1 h2 h3 h4 h5
    simp [compareValues, h1, h2, h3, h4, h5]

/-- Closed witness for `compare_values_spec`: the tolerance equality at a
concrete pair and an unknown operator returning `false`. -/
theorem compare_values_spec_witness :
    (compareValues (.fin 1) 1 "==" = true ↔ |(1 : ℚ) - 1| < 1 / 1000) ∧
    compareValues (.fin 1) 1 "!=" = false :=
  ⟨(compare_values_spec 1 1).1,
    (compare_values_spec 1 1).2.2.2.2.2 "!=" (by decide) (by decide) (by decide)
      (by decide) (by decide)⟩

/-- One normalized market-table entry as consumed by `RiskCalculator`
(the dictionary built by `MonitorService._normalize_market_info`; every
value is a numeric string there, parsed here, `none` when absent or
unparseable).  Each field stands for its snake_case/camelCase lookup pair
resolved by Python `or`. -/
structure MarketData where
  maintenance_margin_fraction : Option ℚ
  initial_margin_fraction : Option ℚ
  initial_margin_fraction_ppm : Option ℚ
  open_interest : Option ℚ
  oracle_price : Option ℚ
  open_interest_lower_cap : Option ℚ
  open_interest_upper_cap : Option ℚ
  spread_to_mmr_ratio : Option ℚ
  bankruptcy_adjustment : Option ℚ
deriving DecidableEq, Repr

/-- A market entry with every field absent. -/
def emptyMarketData : MarketData :=
  ⟨none, none, none, none, none, none, none, none, none⟩

/-- `markets.get(market)` on the optional market table (a falsy/absent
table or a missing key both yield no entry). -/
def getMarket (markets : Option (List (String × MarketData))) (market : String) :
    Option MarketData :=
  match markets with
  | none => none
  | some ms => ms.lookup market

/-- Fallback maintenance margin fraction (`RiskCalculator.__init__`). -/
def defaultMaintenanceMarginFraction : ℚ := 3 / 100

/-- Fallback initial margin fraction (`RiskCalculator.__init__`). -/
def defaultInitialMarginFraction : ℚ := 1 / 20

/-- `RiskCalculator._resolve_market_fraction`: the maintenance margin
fraction of a market, falling back to the `0.03` constant. -/
def resolveMarketFraction (market : String)
    (markets : Option (List (String × MarketData))) : ℚ :=
  match getMarket markets market with
  | none => defaultMaintenanceMarginFraction
  | some info => info.maintenance_margin_fraction.getD defaultMaintenanceMarginFraction

/-- `RiskCalculator._resolve_initial_fraction`: direct field, then the
ppm-encoded field divided by `1000000`, then the `0.05` fallback. -/
def resolveInitialFraction (marketInfo : Option MarketData) : ℚ :=
  match marketInfo with
  | none => defaultInitialMarginFraction
  | some info =>
    match info.initial_margin_fraction with
    | some f => f
    | none =>
      match info.initial_margin_fraction_ppm with
      | some ppm => ppm / 1000000
      | none => defaultInitialMarginFraction

/-- `RiskCalculator.calculate_effective_imf`: open-interest-based IMF
scaling.  `effective = min(base + max(scaling*(1-base), 0), 1)` with
`scaling = max(0, min(1, (open_notional - lower_cap)/(upper_cap - lower_cap)))`
and `open_notional = |open_interest * oracle_price|`; any missing input or
equal caps degrade to the base fraction. -/
def calculateEffectiveImf (marketInfo : Option MarketData) : ℚ :=
  let baseImf := resolveInitialFraction marketInfo
  match marketInfo with
  | none => baseImf
  | some info =>
    match info.open_interest, info.oracle_price with
    | some oi, some op =>
      let openNotional := |oi * op|
      match info.open_interest_lower_cap, info.open_interest_upper_cap with
      | some lowerCap, some upperCap =>
        if upperCap = lowerCap then baseImf
        else
          let scalingFactor :=
            max 0 (min 1 ((openNotional - lowerCap) / (upperCap - lowerCap)))
          let imfIncrease := max 0 (scalingFactor * (1 - baseImf))
          min (baseImf + imfIncrease) 1
      | _, _ => baseImf
    | _, _ => baseImf

/-- Standard clamp: apply the lower bound, then the upper bound. -/
def clamp (x lo hi : ℚ) : ℚ := min (max x lo) hi

/-- The market entry of the C4 scenario: base fraction `0.05`, open
interest `1` (so open notional equals the oracle price), caps `100`/`300`. -/
def imfScenarioMarket (oraclePrice : ℚ) : MarketData :=
  { emptyMarketData with
      initial_margin_fraction := some (1 / 20)
      open_interest := some 1
      oracle_price := some oraclePrice
      open_interest_lower_cap := some 100
      open_interest_upper_cap := some 300 }

/-- A market entry whose caps are inverted (upper `50` < lower `100`)
with open notional `75` between them. -/
def invertedCapsMarket : MarketData :=
  { emptyMarketData with
      initial_margin_fraction := some (1 / 20)
      open_interest := some 1
      oracle_price := some 75
      open_interest_lower_cap := some 100
      open_interest_upper_cap := some 50 }

/-- C4 counterexample: with both caps known but upper cap `50` smaller
than lower cap `100`, the claim's "otherwise" clause predicts the base
fraction `0.05`, yet `calculate_effective_imf` still applies the scaling
formula and returns `21/40 = 0.525` (the code only short-circuits when the
caps are exactly equal). -/
theorem effective_imf_inverted_caps_counterexample :
    calculateEffectiveImf (some invertedCapsMarket) = 21 / 40 ∧
    resolveInitialFraction (some invertedCapsMarket) = 1 / 20 ∧
    ¬ ((50 : ℚ) > 100) ∧
    (21 / 40 : ℚ) ≠ 1 / 20 := by
  refine ⟨?_, rfl, by norm_num, by norm_num⟩
  norm_num [calculateEffectiveImf, invertedCapsMarket, emptyMarketData,
    resolveInitialFraction, min_def, max_def, abs]

/-- C4 (amended): when base fraction, open interest, oracle price and both
caps are known and the upper cap is strictly greater than the lower cap,
the effective initial margin fraction equals
`clamp(base + clamp((open_notional - lower)/(upper - lower), 0, 1) * (1 - base), base, 1)`;
when any of those inputs is unknown, or the caps are equal, it equals the
base fraction (the resolved direct/ppm initial fraction or the `0.05`
fallback); the midpoint/lower/upper particulars hold on the base `0.05`
scenario.  (When both caps are known but upper < lower the scaling formula
is still applied — see the counterexample.) -/
theorem effective_imf_spec :
    (∀ (info : MarketData) (oi op lowerCap upperCap : ℚ),
      info.open_interest = some oi → info.oracle_price = some op →
      info.open_interest_lower_cap = some lowerCap →
      info.open_interest_upper_cap = some upperCap →
      lowerCap < upperCap →
      calculateEffectiveImf (some info) =
        clamp (resolveInitialFraction (some info) +
            clamp ((|oi * op| - lowerCap) / (upperCap - lowerCap)) 0 1 *
              (1 - resolveInitialFraction (some info)))
          (resolveInitialFraction (some info)) 1) ∧
    (∀ (info : MarketData) (c : ℚ),
      info.open_interest_lower_cap = some c → info.open_interest_upper_cap = some c →
      calculateEffectiveImf (some info) = resolveInitialFraction (some info)) ∧
    (∀ info : MarketData, info.open_interest = none →
      calculateEffectiveImf (some info) = resolveInitialFraction (some info)) ∧
    (∀ info : MarketData, info.oracle_price = none →
      calculateEffectiveImf (some info) = resolveInitialFraction (some info)) ∧
    (∀ info : MarketData, info.open_interest_lower_cap = none →
      calculateEffectiveImf (some info) = resolveInitialFraction (some info)) ∧
    (∀ info : MarketData, info.open_interest_upper_cap = none →
      calculateEffectiveImf (some info) = resolveInitialFraction (some info)) ∧
    calculateEffectiveImf none = defaultInitialMarginFraction ∧
    calculateEffectiveImf (some (imfScenarioMarket 200)) = 1 / 20 + (1 / 2) * (1 - 1 / 20) ∧
    calculateEffectiveImf (some (imfScenarioMarket 50)) = 1 / 20 ∧
    calculateEffectiveImf (some (imfScenarioMarket 400)) = 1 := by
  refine ⟨?_, ?_, ?_, ?_, ?_, ?_, rfl,
    by norm_num [calculateEffectiveImf, imfScenarioMarket, emptyMarketData,
      resolveInitialFraction, min_def, max_def, abs],
    by norm_num [calculateEffectiveImf, imfScenarioMarket, emptyMarketData,
      resolveInitialFraction, min_def, max_def, abs],
    by norm_num [calculateEffectiveImf, imfScenarioMarket, emptyMarketData,
      resolveInitialFraction, min_def, max_def, abs]⟩
  · intro info oi op lowerCap upperCap hoi hop hlc huc hlt
    set base := resolveInitialFraction (some info) with hbase
    have hne : upperCap ≠ lowerCap := ne_of_gt hlt
    simp only [calculateEffectiveImf, hoi, hop, hlc, huc, ← hbase, if_neg hne]
    set s := (|oi * op| - lowerCap) / (upperCap - lowerCap) with hs
    have hclamp : max 0 (min 1 s) = clamp s 0 1 := by
      simp only [clamp]
      rcases le_total s 0 with h | h <;> rcases le_total 1 s with h2 | h2 <;>
        simp [max_def, min_def] <;> split_ifs <;> linarith
    rw [hclamp]
    set t := clamp s 0 1 with ht
    have ht0 : 0 ≤ t := by
      rw [ht]
      exact le_min (le_max_right s 0) zero_le_one
    have ht1 : t ≤ 1 := by
      rw [ht]
      exact min_le_right _ 1
    simp only [clamp]
    rcases le_total base 1 with hb | hb
    · have h1 : 0 ≤ t * (1 - base) := mul_nonneg ht0 (by linarith)
      have e1 : max 0 (t * (1 - base)) = t * (1 - base) := max_eq_right h1
      have e2 : max (base + t * (1 - base)) base = base + t * (1 - base) :=
        max_eq_left (by linarith)
      rw [e1, e2]
    · have h1 : t * (1 - base) ≤ 0 :=
        mul_nonpos_of_nonneg_of_nonpos ht0 (by linarith)
      have e1 : max 0 (t * (1 - base)) = 0 := max_eq_left h1
      have e2 : max (base + t * (1 - base)) base = base :=
        max_eq_right (by linarith)
      rw [e1, e2, add_zero]
  · intro info c hlc huc
    simp only [calculateEffectiveImf, hlc, huc]
    cases info.open_interest <;> cases info.oracle_price <;> simp
  · intro info h
    simp only [calculateEffectiveImf, h]
  · intro info h
    simp only [calculateEffectiveImf, h]
    cases info.open_interest <;> simp
  · intro info h
    simp only [calculateEffectiveImf, h]
    cases info.open_interest <;> cases info.oracle_price <;> simp
  · intro info h
    simp only [calculateEffectiveImf, h]
    cases info.open_interest <;> cases info.oracle_price <;>
      cases info.open_interest_lower_cap <;> simp

/-- Closed witness for `effective_imf_spec`: the clamp formula evaluated
at the midpoint scenario. -/
theorem effective_imf_spec_witness :
    calculateEffectiveImf (some (imfScenarioMarket 200)) =
      clamp (resolveInitialFraction (some (imfScenarioMarket 200)) +
          clamp ((|(1 : ℚ) * 200| - 100) / (300 - 100)) 0 1 *
            (1 - resolveInitialFraction (some (imfScenarioMarket 200))))
        (resolveInitialFraction (some (imfScenarioMarket 200))) 1 :=
  effective_imf_spec.1 (imfScenarioMarket 200) 1 200 100 300 rfl rfl rfl rfl
    (by norm_num)

/-- The raw fields of one market entry that
`MonitorService._normalize_market_info` reads when resolving the
maintenance fraction, the spread-to-maintenance-margin ratio and the
bankruptcy adjustment (`config...` fields live in the nested `config`
dict; values pre-parsed, `none` when absent or unparseable). -/
structure RawMarketInfo where
  maintenanceMarginFraction : Option ℚ
  maintenanceMarginFractionPpm : Option ℚ
  configMaintenanceMarginFraction : Option ℚ
  configMaintenanceMarginFractionPpm : Option ℚ
  spreadToMaintenanceMarginRatio : Option ℚ
  spreadToMaintenanceMarginRatioPpm : Option ℚ
  configSpreadToMaintenanceMarginRatio : Option ℚ
  configSpreadToMaintenanceMarginRatioPpm : Option ℚ
  bankruptcyAdjustment : Option ℚ
  bankruptcyAdjustmentPpm : Option ℚ
  configBankruptcyAdjustment : Option ℚ
  configBankruptcyAdjustmentPpm : Option ℚ
deriving DecidableEq, Repr

/-- A raw market entry with every field absent. -/
def emptyRawMarketInfo : RawMarketInfo :=
  ⟨none, none, none, none, none, none, none, none, none, none, none, none⟩

/-- The normalizer's maintenance-fraction resolution (lines 281-305):
direct field, then nested `config`, then the ppm-encoded field (direct or
nested) divided by `1000000`. -/
def normMaintenanceFraction (info : RawMarketInfo) : Option ℚ :=
  match info.maintenanceMarginFraction with
  | some f => some f
  | none =>
    match info.configMaintenanceMarginFraction with
    | some f => some f
    | none =>
      match info.maintenanceMarginFractionPpm.orElse
          (fun _ => info.configMaintenanceMarginFractionPpm) with
      | some ppm => some (ppm / 1000000)
      | none => none

/-- The `> 10`-suspect down-scaling applied to a chosen spread/bankruptcy
candidate (lines 457-459 and 481-483): divide by `1000000` exactly when
the value exceeds `10`. -/
def scaleSuspect (c : ℚ) : ℚ := if c > 10 then c / 1000000 else c

/-- The first non-`None` candidate of a list. -/
def firstSome : List (Option ℚ) → Option ℚ
  | [] => none
  | none :: rest => firstSome rest
  | some c :: _ => some c

/-- The normalizer's candidate loop for the spread ratio and the
bankruptcy adjustment: skip `None` candidates, convert the first present
one (down-scaling it when `> 10`), and stop. -/
def resolveScaled : List (Option ℚ) → Option ℚ
  | [] => none
  | none :: rest => resolveScaled rest
  | some c :: _ => some (scaleSuspect c)

/-- `spread_to_mmr_ratio` resolution (lines 440-463): candidates are the
direct field, the direct ppm field, the nested `config` field, then the
nested `config` ppm field. -/
def resolveSpreadRatio (info : RawMarketInfo) : Option ℚ :=
  resolveScaled [info.spreadToMaintenanceMarginRatio,
    info.spreadToMaintenanceMarginRatioPpm,
    info.configSpreadToMaintenanceMarginRatio,
    info.configSpreadToMaintenanceMarginRatioPpm]

/-- `bankruptcy_adjustment` resolution (lines 465-487): same candidate
order and treatment as the spread ratio. -/
def resolveBankruptcyAdjustment (info : RawMarketInfo) : Option ℚ :=
  resolveScaled [info.bankruptcyAdjustment,
    info.bankruptcyAdjustmentPpm,
    info.configBankruptcyAdjustment,
    info.configBankruptcyAdjustmentPpm]

/-- Claim-side definition for C9, following the specification's words:
resolve the spread ratio in the same order as the margin fractions
(direct field, nested `config`, ppm-encoded field divided by `1000000`)
and down-scale a value still greater than `10` after conversion. -/
def resolveSpreadRatioClaimSide (info : RawMarketInfo) : Option ℚ :=
  (match info.spreadToMaintenanceMarginRatio with
   | some f => some f
   | none =>
     match info.configSpreadToMaintenanceMarginRatio with
     | some f => some f
     | none =>
       match info.spreadToMaintenanceMarginRatioPpm.orElse
           (fun _ => info.configSpreadToMaintenanceMarginRatioPpm) with
       | some ppm => some (ppm / 1000000)
       | none => none).map scaleSuspect

/-- The candidate loop returns the first present candidate, converted. -/
theorem resolveScaled_eq_firstSome (cs : List (Option ℚ)) :
    resolveScaled cs = (firstSome cs).map scaleSuspect := by
  induction cs with
  | nil => rfl
  | cons c rest ih => cases c <;> simp [resolveScaled, firstSome, ih]

/-- C9 counterexample: a market whose direct ppm field is `500000` and
whose nested `config` carries the plain value `0.25`.  The code resolves
the direct ppm candidate first and stores `0.5`; the claimed
margin-fraction order (nested `config` before any ppm field) would store
`0.25`. -/
def ppmBeforeConfigMarket : RawMarketInfo :=
  { emptyRawMarketInfo with
      spreadToMaintenanceMarginRatioPpm := some 500000
      configSpreadToMaintenanceMarginRatio := some (1 / 4) }

/-- C9 is false on the code: on `ppmBeforeConfigMarket` the normalizer
stores `1/2` while the claimed resolution order yields `1/4`. -/
theorem spread_resolution_order_counterexample :
    resolveSpreadRatio ppmBeforeConfigMarket = some (1 / 2) ∧
    resolveSpreadRatioClaimSide ppmBeforeConfigMarket = some (1 / 4) ∧
    resolveSpreadRatio ppmBeforeConfigMarket ≠
      resolveSpreadRatioClaimSide ppmBeforeConfigMarket := by
  have h1 : resolveSpreadRatio ppmBeforeConfigMarket = some (1 / 2) := by
    norm_num [resolveSpreadRatio, resolveScaled, scaleSuspect,
      ppmBeforeConfigMarket, emptyRawMarketInfo]
  have h2 : resolveSpreadRatioClaimSide ppmBeforeConfigMarket = some (1 / 4) := by
    norm_num [resolveSpreadRatioClaimSide, ppmBeforeConfigMarket,
      emptyRawMarketInfo, scaleSuspect, Option.orElse, Option.map]
  refine ⟨h1, h2, ?_⟩
  rw [h1, h2]
  norm_num

/-- C9 (amended): the spread ratio and the bankruptcy adjustment are both
resolved by taking the first present candidate in the order direct field,
direct ppm field, nested `config` field, nested `config` ppm field — the
ppm-named fields are not unconditionally divided by `1000000`; instead the
chosen candidate (whatever its origin) is divided by `1000000` exactly
once when its value exceeds `10`, and stored unchanged otherwise.  The
margin fractions use a different order (direct, nested `config`, then ppm
divided by `1000000` unconditionally). -/
theorem spread_bankruptcy_resolution_spec :
    (∀ info : RawMarketInfo,
      resolveSpreadRatio info =
        (firstSome [info.spreadToMaintenanceMarginRatio,
          info.spreadToMaintenanceMarginRatioPpm,
          info.configSpreadToMaintenanceMarginRatio,
          info.configSpreadToMaintenanceMarginRatioPpm]).map scaleSuspect) ∧
    (∀ info : RawMarketInfo,
      resolveBankruptcyAdjustment info =
        (firstSome [info.bankruptcyAdjustment,
          info.bankruptcyAdjustmentPpm,
          info.configBankruptcyAdjustment,
          info.configBankruptcyAdjustmentPpm]).map scaleSuspect) ∧
    (∀ c : ℚ, scaleSuspect c = if c > 10 then c / 1000000 else c) ∧
    scaleSuspect 20000000 = 20 ∧
    scaleSuspect 5 = 5 ∧
    normMaintenanceFraction
      { emptyRawMarketInfo with maintenanceMarginFractionPpm := some 5 } =
      some (5 / 1000000) := by
  refine ⟨fun info => resolveScaled_eq_firstSome _,
    fun info => resolveScaled_eq_firstSome _, fun c => rfl,
    by norm_num [scaleSuspect], by norm_num [scaleSuspect], rfl⟩

/-- The alert kinds emitted by the legacy engine (`schemas/alert.py`). -/
inductive AlertType where
  | liquidation_warning
  | liquidation
  | adl_warning
deriving DecidableEq, Repr

/-- The cooldown-map key suffix of an alert type (its `.value`). -/
def AlertType.value : AlertType → String
  | .liquidation_warning => "liquidation_warning"
  | .liquidation => "liquidation"
  | .adl_warning => "adl_warning"

/-- Alert severities (`schemas/alert.py`). -/
inductive AlertSeverity where
  | info
  | warning
  | critical
deriving DecidableEq, Repr

/-- A legacy-engine alert (`alert_engine.py` `Alert`), message formatting
abstracted to the type/severity pair the claims are about. -/
structure AlertE where
  alert_type : AlertType
  severity : AlertSeverity
  subaccount_id : String
deriving DecidableEq, Repr

/-- The mutable state of `AlertEngine`: the per-(subaccount, alert-type)
cooldown map (last alert timestamp, in seconds) and the configured
cooldown duration. -/
structure AlertEngineState where
  alert_cooldowns : List (String × ℚ)
  cooldown_seconds : ℚ
deriving DecidableEq, Repr

/-- The cooldown-map key `f"{subaccount_id}_{alert_type.value}"`. -/
def cooldownKey (subaccountId : String) (alertType : AlertType) : String :=
  subaccountId ++ "_" ++ alertType.value

/-- `AlertEngine.should_alert`: allowed when no previous alert of this
kind was recorded, or the elapsed time reaches the cooldown. -/
def shouldAlert (st : AlertEngineState) (now : ℚ) (subaccountId : String)
    (alertType : AlertType) : Bool :=
  match st.alert_cooldowns.lookup (cooldownKey subaccountId alertType) with
  | none => true
  | some lastTime => decide (now - lastTime ≥ st.cooldown_seconds)

/-- `AlertEngine.record_alert`: store the current time under the key. -/
def recordAlert (st : AlertEngineState) (now : ℚ) (subaccountId : String)
    (alertType : AlertType) : AlertEngineState :=
  { st with alert_cooldowns :=
      (cooldownKey subaccountId alertType, now) :: st.alert_cooldowns }

/-- `AlertEngine.evaluate_liquidation_risk` (lines 140-177): emits a
critical `liquidation` alert when the liquidation distance is `≤ 0`, else
a `liquidation_warning` when the distance is within the subaccount's
threshold — critical at `≤ 5`, warning above — each gated by the
cooldown. -/
def evaluateLiquidationRisk (st : AlertEngineState) (now : ℚ)
    (subaccountId : String) (threshold : ℚ) (metrics : RiskMetricsE) :
    Option AlertE × AlertEngineState :=
  let distance := metrics.liquidation_distance_percent
  if distance.leQ 0 then
    if shouldAlert st now subaccountId .liquidation then
      (some ⟨.liquidation, .critical, subaccountId⟩,
        recordAlert st now subaccountId .liquidation)
    else (none, st)
  else if distance.leQ threshold then
    let severity := if distance.leQ 5 then AlertSeverity.critical else .warning
    if shouldAlert st now subaccountId .liquidation_warning then
      (some ⟨.liquidation_warning, severity, subaccountId⟩,
        recordAlert st now subaccountId .liquidation_warning)
    else (none, st)
  else (none, st)

/-- C6: with `liquidation_threshold_percent = 10` and a fresh engine (no
cooldown recorded), a distance of `8` yields a `liquidation_warning` of
severity `warning` (not critical, `8 > 5`); a distance of `3` yields a
`liquidation_warning` of severity `critical`; and any distance `≤ 0`
yields a `liquidation` alert of severity `critical` whatever the
threshold. -/
theorem legacy_engine_escalation
    (now cds : ℚ) (subId : String) (m8 m3 m0 : RiskMetricsE) (d threshold : ℚ)
    (h8 : m8.liquidation_distance_percent = .fin 8)
    (h3 : m3.liquidation_distance_percent = .fin 3)
    (h0 : m0.liquidation_distance_percent = .fin d) (hd : d ≤ 0) :
    (evaluateLiquidationRisk ⟨[], cds⟩ now subId 10 m8).1 =
      some ⟨.liquidation_warning, .warning, subId⟩ ∧
    (evaluateLiquidationRisk ⟨[], cds⟩ now subId 10 m3).1 =
      some ⟨.liquidation_warning, .critical, subId⟩ ∧
    (evaluateLiquidationRisk ⟨[], cds⟩ now subId threshold m0).1 =
      some ⟨.liquidation, .critical, subId⟩ := by
  refine ⟨?_, ?_, ?_⟩
  · norm_num [evaluateLiquidationRisk, h8, Dec.leQ, shouldAlert]
  · norm_num [evaluateLiquidationRisk, h3, Dec.leQ, shouldAlert]
  · norm_num [evaluateLiquidationRisk, h0, Dec.leQ, hd, shouldAlert]

/-- Closed witness for `legacy_engine_escalation` at concrete metrics. -/
theorem legacy_engine_escalation_witness :
    (evaluateLiquidationRisk ⟨[], 300⟩ 0 "sub" 10
        ⟨1000, 100, 100, .fin (108 / 100), .fin 8, 0, [], []⟩).1 =
      some ⟨.liquidation_warning, .warning, "sub"⟩ ∧
    (evaluateLiquidationRisk ⟨[], 300⟩ 0 "sub" 10
        ⟨1000, 100, 100, .fin (103 / 100), .fin 3, 0, [], []⟩).1 =
      some ⟨.liquidation_warning, .critical, "sub"⟩ ∧
    (evaluateLiquidationRisk ⟨[], 300⟩ 0 "sub" 25
        ⟨1000, 100, 100, .fin (9 / 10), .fin (-10), 0, [], []⟩).1 =
      some ⟨.liquidation, .critical, "sub"⟩ :=
  legacy_engine_escalation 0 300 "sub"
    ⟨1000, 100, 100, .fin (108 / 100), .fin 8, 0, [], []⟩
    ⟨1000, 100, 100, .fin (103 / 100), .fin 3, 0, [], []⟩
    ⟨1000, 100, 100, .fin (9 / 10), .fin (-10), 0, [], []⟩
    (-10) 25 rfl rfl rfl (by norm_num)

/-- A custom alert rule (`models/alert_rule.py` fields read by the
evaluator).  `subaccount_id = none` is a global rule. -/
structure AlertRuleE where
  id : ℕ
  name : String
  enabled : Bool
  archived : Bool
  scope : String
  condition_type : String
  threshold_value : ℚ
  comparison : String
  alert_severity : String
  subaccount_id : Option ℕ
  position_market : Option String
deriving DecidableEq, Repr

/-- The `position_size` aggregate: sum of `abs(position_value)` over all
position metrics whose `position_value` is truthy (present and nonzero). -/
def totalPositionSize (metrics : RiskMetricsE) : ℚ :=
  metrics.position_metrics.foldl
    (fun acc p =>
      match p.2.position_value with
      | some v => if v = 0 then acc else acc + |v|
      | none => acc) 0

/-- `AlertRuleEvaluator._evaluate_account_condition` (lines 77-103):
select the account-level actual value by condition type (an unknown type
is `False`) and compare it against the threshold. -/
def evaluateAccountCondition (rule : AlertRuleE) (metrics : RiskMetricsE) : Bool :=
  let actual : Option Dec :=
    if rule.condition_type = "liquidation_distance" then
      some metrics.liquidation_distance_percent
    else if rule.condition_type = "margin_ratio" then
      some metrics.margin_ratio
    else if rule.condition_type = "equity_drop" then
      some (.fin metrics.equity)
    else if rule.condition_type = "position_size" then
      some (.fin (totalPositionSize metrics))
    else if rule.condition_type = "free_collateral" then
      some (.fin metrics.free_collateral)
    else none
  match actual with
  | none => false
  | some a => compareValues a rule.threshold_value rule.comparison

/-- `AlertRuleEvaluator._evaluate_position_condition` (lines 105-137):
a falsy or absent target market is `False`; otherwise select the
position-level actual value (missing values defaulting to `0` via
`or 0`) and compare. -/
def evaluatePositionCondition (rule : AlertRuleE) (metrics : RiskMetricsE) : Bool :=
  match rule.position_market with
  | none => false
  | some market =>
    if market = "" then false
    else
      match metrics.position_metrics.lookup market with
      | none => false
      | some pm =>
        let actual : Option ℚ :=
          if rule.condition_type = "position_pnl_percent" then
            some (pm.unrealized_pnl_percent.getD 0)
          else if rule.condition_type = "position_pnl_usd" then
            some (pm.unrealized_pnl.getD 0)
          else if rule.condition_type = "position_size_usd" then
            some |pm.position_value.getD 0|
          else if rule.condition_type = "position_size_contracts" then
            some |pm.size.getD 0|
          else if rule.condition_type = "position_liquidation_distance" then
            some (pm.liquidation_distance_percent.getD 0)
          else if rule.condition_type = "position_leverage" then
            some (pm.leverage.getD 0)
          else if rule.condition_type = "position_entry_price" then
            some |pm.entry_price.getD 0|
          else if rule.condition_type = "position_oracle_price" then
            some |pm.oracle_price.getD 0|
          else none
        match actual with
        | none => false
        | some a => compareValues (.fin a) rule.threshold_value rule.comparison

/-- `AlertRuleEvaluator.evaluate_condition`: dispatch on the rule scope. -/
def evaluateCondition (rule : AlertRuleE) (metrics : RiskMetricsE) : Bool :=
  if rule.scope = "position" then evaluatePositionCondition rule metrics
  else evaluateAccountCondition rule metrics

/-- A `RuleAlert` produced by a fired rule (message/description
formatting and metadata abstracted to the identifying fields). -/
structure RuleAlertE where
  rule_id : ℕ
  severity : String
  subaccount_id : ℕ
deriving DecidableEq, Repr

/-- The observable side effects of processing one rule, in program
order: the rule is archived (committed), then the message is formatted. -/
inductive EvalEvent where
  | archiveRule (ruleId : ℕ)
  | formatMessage (ruleId : ℕ)
deriving DecidableEq, Repr

/-- The body of the `evaluate_rules_for_subaccount` loop for one rule
(lines 433-519): rules must be enabled and unarchived (the CRUD query and
the in-loop skip), scoped to this subaccount or global; when the
condition is met the rule is archived first, then the message is
formatted and the alert appended. -/
def stepRule (subId : ℕ) (metrics : RiskMetricsE) (r : AlertRuleE) :
    Option RuleAlertE × AlertRuleE × List EvalEvent :=
  if ¬ r.enabled then (none, r, [])
  else if r.archived then (none, r, [])
  else if (match r.subaccount_id with
           | some sid => decide (sid ≠ subId)
           | none => false) then (none, r, [])
  else if evaluateCondition r metrics then
    (some ⟨r.id, r.alert_severity, subId⟩, { r with archived := true },
      [.archiveRule r.id, .formatMessage r.id])
  else (none, r, [])

/-- The result of one `evaluate_rules_for_subaccount` call: the triggered
alerts, the rule table as left in the store, and the event trace. -/
structure EvalOutcome where
  alerts : List RuleAlertE
  rules : List AlertRuleE
  events : List EvalEvent
deriving DecidableEq, Repr

/-- `AlertRuleEvaluator.evaluate_rules_for_subaccount` over the rule
table (sequential loop; each rule's processing is independent). -/
def evaluateRulesForSubaccount (subId : ℕ) (metrics : RiskMetricsE) :
    List AlertRuleE → EvalOutcome
  | [] => ⟨[], [], []⟩
  | r :: rest =>
    let step := stepRule subId metrics r
    let out := evaluateRulesForSubaccount subId metrics rest
    ⟨(match step.1 with
      | some a => a :: out.alerts
      | none => out.alerts),
      step.2.1 :: out.rules, step.2.2 ++ out.events⟩

/-- The alerts of a run over concatenated rule tables split accordingly. -/
theorem evalRules_alerts_append (subId : ℕ) (metrics : RiskMetricsE)
    (xs ys : List AlertRuleE) :
    (evaluateRulesForSubaccount subId metrics (xs ++ ys)).alerts =
      (evaluateRulesForSubaccount subId metrics xs).alerts ++
        (evaluateRulesForSubaccount subId metrics ys).alerts := by
  induction xs with
  | nil => simp [evaluateRulesForSubaccount]
  | cons r rest ih =>
    simp only [List.cons_append, evaluateRulesForSubaccount]
    cases (stepRule subId metrics r).1 <;> simp [ih]

/-- The rule table after a run over concatenated tables splits
accordingly. -/
theorem evalRules_rules_append (subId : ℕ) (metrics : RiskMetricsE)
    (xs ys : List AlertRuleE) :
    (evaluateRulesForSubaccount subId metrics (xs ++ ys)).rules =
      (evaluateRulesForSubaccount subId metrics xs).rules ++
        (evaluateRulesForSubaccount subId metrics ys).rules := by
  induction xs with
  | nil => simp [evaluateRulesForSubaccount]
  | cons r rest ih =>
    simp only [List.cons_append, evaluateRulesForSubaccount]
    simp [ih]

/-- An armed, applicable rule whose condition holds fires: one alert, the
rule archived, and the archive committed before the message is
formatted. -/
theorem stepRule_fires (subId : ℕ) (metrics : RiskMetricsE) (r : AlertRuleE)
    (hen : r.enabled = true) (har : r.archived = false)
    (happ : r.subaccount_id = none ∨ r.subaccount_id = some subId)
    (hcond : evaluateCondition r metrics = true) :
    stepRule subId metrics r =
      (some ⟨r.id, r.alert_severity, subId⟩, { r with archived := true },
        [.archiveRule r.id, .formatMessage r.id]) := by
  rcases happ with h | h <;> simp [stepRule, hen, har, h, hcond]

/-- An archived rule is skipped and fires nothing. -/
theorem stepRule_archived_skips (subId : ℕ) (metrics : RiskMetricsE)
    (r : AlertRuleE) (har : r.archived = true) :
    stepRule subId metrics r = (none, r, []) := by
  by_cases he : r.enabled <;> simp [stepRule, he, har]

/-- C1: an armed rule (`enabled`, not `archived`, global or scoped to
this subaccount) whose condition holds on the metrics snapshot is
archived before its message is formatted and contributes exactly one
alert to the first `evaluate_rules_for_subaccount` call; an immediately
repeated call on the resulting rule table with the same snapshot skips
the now-archived rule, so it fires zero times there and at most once
across the two calls. -/
theorem rule_fires_at_most_once
    (subId : ℕ) (metrics : RiskMetricsE) (r : AlertRuleE)
    (pre post : List AlertRuleE)
    (hen : r.enabled = true) (har : r.archived = false)
    (happ : r.subaccount_id = none ∨ r.subaccount_id = some subId)
    (hcond : evaluateCondition r metrics = true) :
    (stepRule subId metrics r).2.1.archived = true ∧
    (stepRule subId metrics r).2.2 =
      [.archiveRule r.id, .formatMessage r.id] ∧
    (evaluateRulesForSubaccount subId metrics (pre ++ r :: post)).rules =
      (evaluateRulesForSubaccount subId metrics pre).rules ++
        ({ r with archived := true } ::
          (evaluateRulesForSubaccount subId metrics post).rules) ∧
    (evaluateRulesForSubaccount subId metrics (pre ++ r :: post)).alerts =
      (evaluateRulesForSubaccount subId metrics pre).alerts ++
        (⟨r.id, r.alert_severity, subId⟩ ::
          (evaluateRulesForSubaccount subId metrics post).alerts) ∧
    (stepRule subId metrics { r with archived := true }).1 = none ∧
    (evaluateRulesForSubaccount subId metrics
        (evaluateRulesForSubaccount subId metrics (pre ++ r :: post)).rules).alerts =
      (evaluateRulesForSubaccount subId metrics
          (evaluateRulesForSubaccount subId metrics pre).rules).alerts ++
        (evaluateRulesForSubaccount subId metrics
          (evaluateRulesForSubaccount subId metrics post).rules).alerts := by
  have hstep := stepRule_fires subId metrics r hen har happ hcond
  have hrules :
      (evaluateRulesForSubaccount subId metrics (pre ++ r :: post)).rules =
        (evaluateRulesForSubaccount subId metrics pre).rules ++
          ({ r with archived := true } ::
            (evaluateRulesForSubaccount subId metrics post).rules) := by
    rw [evalRules_rules_append]
    simp [evaluateRulesForSubaccount, hstep]
  have halerts :
      (evaluateRulesForSubaccount subId metrics (pre ++ r :: post)).alerts =
        (evaluateRulesForSubaccount subId metrics pre).alerts ++
          (⟨r.id, r.alert_severity, subId⟩ ::
            (evaluateRulesForSubaccount subId metrics post).alerts) := by
    rw [evalRules_alerts_append]
    simp [evaluateRulesForSubaccount, hstep]
  have hskip : stepRule subId metrics { r with archived := true } =
      (none, { r with archived := true }, []) :=
    stepRule_archived_skips subId metrics _ rfl
  refine ⟨by rw [hstep], by rw [hstep], hrules, halerts, by rw [hskip], ?_⟩
  rw [hrules, evalRules_alerts_append]
  simp [evaluateRulesForSubaccount, hskip]

/-- Closed witness rule for `rule_fires_at_most_once`. -/
def witnessRule : AlertRuleE :=
  ⟨1, "eq", true, false, "account", "equity_drop", 0, ">=", "warning", none, none⟩

/-- Closed witness metrics for `rule_fires_at_most_once`. -/
def witnessMetrics : RiskMetricsE :=
  ⟨100, 50, 50, .fin 2, .fin 100, 50, [], []⟩

/-- Closed witness for `rule_fires_at_most_once`. -/
theorem rule_fires_at_most_once_witness :
    (stepRule 7 witnessMetrics witnessRule).2.1.archived = true ∧
    (stepRule 7 witnessMetrics witnessRule).2.2 =
      [.archiveRule 1, .formatMessage 1] ∧
    (evaluateRulesForSubaccount 7 witnessMetrics ([] ++ witnessRule :: [])).rules =
      (evaluateRulesForSubaccount 7 witnessMetrics []).rules ++
        ({ witnessRule with archived := true } ::
          (evaluateRulesForSubaccount 7 witnessMetrics []).rules) ∧
    (evaluateRulesForSubaccount 7 witnessMetrics ([] ++ witnessRule :: [])).alerts =
      (evaluateRulesForSubaccount 7 witnessMetrics []).alerts ++
        (⟨1, "warning", 7⟩ ::
          (evaluateRulesForSubaccount 7 witnessMetrics []).alerts) ∧
    (stepRule 7 witnessMetrics { witnessRule with archived := true }).1 = none ∧
    (evaluateRulesForSubaccount 7 witnessMetrics
        (evaluateRulesForSubaccount 7 witnessMetrics
          ([] ++ witnessRule :: [])).rules).alerts =
      (evaluateRulesForSubaccount 7 witnessMetrics
          (evaluateRulesForSubaccount 7 witnessMetrics ([] : List AlertRuleE)).rules).alerts ++
        (evaluateRulesForSubaccount 7 witnessMetrics
          (evaluateRulesForSubaccount 7 witnessMetrics ([] : List AlertRuleE)).rules).alerts :=
  rule_fires_at_most_once 7 witnessMetrics witnessRule [] [] rfl rfl (Or.inl rfl)
    (by rfl)

/-- The metrics object the calculator produces for an account snapshot
with zero total maintenance requirement (no open positions): the margin
ratio and liquidation distance are the infinite sentinels. -/
def noPositionMetrics (e init free : ℚ) (ps : List (String × RawPosition))
    (pm : List (String × PosMetrics)) : RiskMetricsE :=
  ⟨e, 0, init, calculateMarginRatio e 0,
    calculateLiquidationDistance (calculateMarginRatio e 0), free, ps, pm⟩

/-- C10: against the no-position metrics (zero maintenance requirement),
an armed account-scoped rule with condition type `margin_ratio` or
`liquidation_distance` and operator `>` or `>=` evaluates true for every
finite threshold, so the rule fires and is archived even though the
account holds no positions. -/
theorem no_position_account_rule_fires
    (e init free : ℚ) (ps : List (String × RawPosition))
    (pm : List (String × PosMetrics)) (r : AlertRuleE) (subId : ℕ)
    (hscope : r.scope = "account")
    (hct : r.condition_type = "margin_ratio" ∨
      r.condition_type = "liquidation_distance")
    (hcmp : r.comparison = ">" ∨ r.comparison = ">=")
    (hen : r.enabled = true) (har : r.archived = false)
    (happ : r.subaccount_id = none ∨ r.subaccount_id = some subId) :
    (noPositionMetrics e init free ps pm).margin_ratio = Dec.posInf ∧
    (noPositionMetrics e init free ps pm).liquidation_distance_percent = Dec.posInf ∧
    evaluateCondition r (noPositionMetrics e init free ps pm) = true ∧
    (stepRule subId (noPositionMetrics e init free ps pm) r).1 =
      some ⟨r.id, r.alert_severity, subId⟩ ∧
    (stepRule subId (noPositionMetrics e init free ps pm) r).2.1.archived = true := by
  have hcond :
      evaluateCondition r (noPositionMetrics e init free ps pm) = true := by
    rcases hct with h | h <;> rcases hcmp with h2 | h2 <;>
      simp [evaluateCondition, evaluateAccountCondition, hscope, h, h2,
        compareValues, Dec.gtQ, Dec.geQ, noPositionMetrics,
        calculateMarginRatio, calculateLiquidationDistance]
  have hstep := stepRule_fires subId (noPositionMetrics e init free ps pm) r
    hen har happ hcond
  exact ⟨by simp [noPositionMetrics, calculateMarginRatio],
    by simp [noPositionMetrics, calculateMarginRatio, calculateLiquidationDistance],
    hcond, by rw [hstep], by rw [hstep]⟩

/-- Closed witness rule for `no_position_account_rule_fires`: a huge
finite threshold compared with `>`. -/
def noPositionWitnessRule : AlertRuleE :=
  ⟨2, "mr", true, false, "account", "margin_ratio", 1000000, ">", "critical",
    some 5, none⟩

/-- Closed witness for `no_position_account_rule_fires`. -/
theorem no_position_account_rule_fires_witness :
    (noPositionMetrics 50 0 50 [] []).margin_ratio = Dec.posInf ∧
    (noPositionMetrics 50 0 50 [] []).liquidation_distance_percent = Dec.posInf ∧
    evaluateCondition noPositionWitnessRule (noPositionMetrics 50 0 50 [] []) = true ∧
    (stepRule 5 (noPositionMetrics 50 0 50 [] []) noPositionWitnessRule).1 =
      some ⟨2, "critical", 5⟩ ∧
    (stepRule 5 (noPositionMetrics 50 0 50 [] []) noPositionWitnessRule).2.1.archived
      = true :=
  no_position_account_rule_fires 50 0 50 [] [] noPositionWitnessRule 5 rfl
    (Or.inl rfl) (Or.inl rfl) rfl rfl (Or.inr rfl)

/-- A raw position with every field absent. -/
def emptyRawPosition : RawPosition :=
  ⟨none, none, none, none, none, none, none, none, none, none, none, none,
    none, none, none, none, none, none⟩

/-- The ordered position-level price fallback chain used by the
requirement calculators (`oraclePrice`, `indexPrice`, `markPrice`,
`entryPrice`, `price`). -/
def posPriceFallback (p : RawPosition) : Option ℚ :=
  (((p.oraclePrice.orElse fun _ => p.indexPrice).orElse
      fun _ => p.markPrice).orElse fun _ => p.entryPrice).orElse fun _ => p.price

/-- The oracle price of a market from the normalized market table. -/
def marketOraclePrice (markets : Option (List (String × MarketData)))
    (market : String) : Option ℚ :=
  (getMarket markets market).bind fun i => i.oracle_price

/-- The maintenance fraction used for one position inside
`calculate_maintenance_requirement`: the market-resolved fraction, with a
position-level override (direct or ppm) applied only when the market
resolution fell back to the `0.03` default. -/
def positionMaintenanceFraction (market : String)
    (markets : Option (List (String × MarketData))) (p : RawPosition) : ℚ :=
  let fraction := resolveMarketFraction market markets
  if fraction = defaultMaintenanceMarginFraction then
    match p.maintenanceMarginFraction.orElse
        (fun _ => p.maintenanceMarginFractionPpm.map (· / 1000000)) with
    | some f => f
    | none => fraction
  else fraction

/-- `RiskCalculator.calculate_maintenance_requirement` (lines 260-344):
total `Σ |size| * price * fraction` plus the per-market details map;
positions missing a price or with zero notional are skipped. -/
def calculateMaintenanceRequirement
    (positions : List (String × RawPosition))
    (markets : Option (List (String × MarketData))) : ℚ × List (String × ℚ) :=
  positions.foldl
    (fun acc mp =>
      let size := |mp.2.size.getD 0|
      match (marketOraclePrice markets mp.1).orElse
          (fun _ => posPriceFallback mp.2) with
      | none => acc
      | some price =>
        let notional := size * price
        if notional = 0 then acc
        else
          let requirement := notional * positionMaintenanceFraction mp.1 markets mp.2
          (acc.1 + requirement, acc.2 ++ [(mp.1, requirement)]))
    (0, [])

/-- The effective initial fraction used for one position inside
`calculate_initial_requirement`: the OI-scaled market fraction, with the
position-level override applied only on the `0.05` default. -/
def positionInitialFraction (market : String)
    (markets : Option (List (String × MarketData))) (p : RawPosition) : ℚ :=
  let fraction := calculateEffectiveImf (getMarket markets market)
  if fraction = defaultInitialMarginFraction then
    match p.initialMarginFraction with
    | some f => f
    | none => fraction
  else fraction

/-- `RiskCalculator.calculate_initial_requirement` (lines 346-424). -/
def calculateInitialRequirement
    (positions : List (String × RawPosition))
    (markets : Option (List (String × MarketData))) : ℚ × List (String × ℚ) :=
  positions.foldl
    (fun acc mp =>
      let size := |mp.2.size.getD 0|
      match (marketOraclePrice markets mp.1).orElse
          (fun _ => posPriceFallback mp.2) with
      | none => acc
      | some price =>
        let notional := size * price
        if notional = 0 then acc
        else
          let requirement := notional * positionInitialFraction mp.1 markets mp.2
          (acc.1 + requirement, acc.2 ++ [(mp.1, requirement)]))
    (0, [])

/-- `RiskCalculator.calculate_fillable_price` (lines 495-533): protocol
fillable price, requiring a positive oracle price and positive spread
ratio and bankruptcy adjustment, with `Q = clamp(equity / total_req, 0, 1)`. -/
def calculateFillablePrice (oraclePrice : Option ℚ) (maintenanceFraction : ℚ)
    (equity totalRequirement : ℚ) (marketInfo : Option MarketData) : Option ℚ :=
  match oraclePrice with
  | none => none
  | some p =>
    if p ≤ 0 then none
    else
      match marketInfo with
      | none => none
      | some info =>
        match info.spread_to_mmr_ratio, info.bankruptcy_adjustment with
        | some spreadRatio, some bankruptcyAdjustment =>
          if spreadRatio ≤ 0 then none
          else if bankruptcyAdjustment ≤ 0 then none
          else
            let q0 : ℚ := if totalRequirement > 0 then equity / totalRequirement else 0
            let q := min (max q0 0) 1
            some (p * (1 - spreadRatio * maintenanceFraction *
              (bankruptcyAdjustment * (1 - q))))
        | _, _ => none

/-- The `_sanitize` helper of `calculate_risk_metrics` (lines 748-755):
a computed price that is `≤ 0` or `> 1e7` becomes `None`. -/
def sanitizePrice : Option ℚ → Option ℚ
  | none => none
  | some p => if p ≤ 0 then none else if p > 10000000 then none else some p

/-- Side/sign resolution for the position size (lines 606-619): explicit
`side`/`isLong`/`isShort` flags take precedence over the sign of the raw
magnitude. -/
def resolveSignedSize (rawSize : ℚ) (p : RawPosition) : ℚ :=
  match p.side with
  | some s =>
    let n := s.toUpper
    if n = "SHORT" || n = "SELL" then -|rawSize|
    else if n = "LONG" || n = "BUY" then |rawSize|
    else rawSize
  | none =>
    match p.isLong with
    | some b => if b then |rawSize| else -|rawSize|
    | none =>
      match p.isShort with
      | some b => if b then -|rawSize| else |rawSize|
      | none => rawSize

/-- The protocol-reported liquidation price override (lines 761-770):
a (sanitized) protocol price replaces the isolated price for isolated
positions and the cross price otherwise. -/
def applyProtocolOverride (isolated cross protocol : Option ℚ)
    (marginMode : String) : Option ℚ × Option ℚ :=
  match protocol with
  | none => (isolated, cross)
  | some p => if marginMode = "ISOLATED" then (some p, cross) else (isolated, some p)

/-- The per-position body of the `calculate_risk_metrics` loop
(lines 601-850), producing one `position_metrics` entry; positions with a
missing or zero raw size are skipped. -/
def buildPositionMetrics (equity : ℚ)
    (markets : Option (List (String × MarketData))) (maintenanceTotal : ℚ)
    (maintDetails initDetails : List (String × ℚ))
    (market : String) (position : RawPosition) : Option PosMetrics :=
  match position.size with
  | none => none
  | some rawSize =>
    if rawSize = 0 then none
    else
      let size := resolveSignedSize rawSize position
      let maintenanceFraction := resolveMarketFraction market markets
      let marketInfo := getMarket markets market
      let oracle :=
        ((marketInfo.bind fun i => i.oracle_price).orElse
          (fun _ => position.oraclePrice.orElse fun _ => position.indexPrice)).orElse
          fun _ => position.entryPrice
      let initialFraction := calculateEffectiveImf marketInfo
      let requirement0 := (maintDetails.lookup market).getD 0
      let initialReq0 := (initDetails.lookup market).getD 0
      let otherRequirements := max 0 (maintenanceTotal - requirement0)
      let positionNotional0 :=
        match oracle with
        | some p => some (|size| * p)
        | none => position.notionalField.map abs
      let requirement := position.maintenanceMarginRequirement.getD requirement0
      let initialReq := position.initialMarginRequirement.getD initialReq0
      let positionNotional1 :=
        if initialFraction = 0 then positionNotional0
        else some |initialReq / initialFraction|
      let positionNotional :=
        match positionNotional1 with
        | some v => some v
        | none => if maintenanceFraction = 0 then none else some |requirement / maintenanceFraction|
      let isolated := calculateIsolatedLiquidationPrice equity size oracle maintenanceFraction
      let cross := calculateCrossLiquidationPrice equity size oracle maintenanceFraction
        otherRequirements
      let fillable := calculateFillablePrice oracle maintenanceFraction equity
        maintenanceTotal marketInfo
      let protocol := sanitizePrice position.liquidationPrice
      let isolatedS := sanitizePrice isolated
      let crossS := sanitizePrice cross
      let marginMode := (position.marginMode.getD "CROSS").toUpper
      let prices := applyProtocolOverride isolatedS crossS protocol marginMode
      let pnl := position.unrealizedPnl
      let entryValue :=
        match position.entryPrice with
        | some ep => if ep = 0 then none else some |size * ep|
        | none => none
      let pnlPercent :=
        match pnl, entryValue with
        | some u, some ev => some (u / ev * 100)
        | _, _ => none
      let positionLiqDistance :=
        if requirement = 0 then none
        else
          match positionNotional with
          | some pn =>
            let equityContribution := pn + pnl.getD 0
            if equityContribution > 0 then
              some ((equityContribution / requirement - 1) * 100)
            else none
          | none => none
      let leverage :=
        if equity = 0 then none
        else positionNotional.map (· / equity)
      some
        { margin_mode := position.marginMode
          size := some size
          entry_price := position.entryPrice
          oracle_price := oracle
          position_value := positionNotional
          unrealized_pnl := pnl
          unrealized_pnl_percent := pnlPercent
          leverage := leverage
          liquidation_distance_percent := positionLiqDistance
          isolated_liquidation_price := prices.1
          cross_liquidation_price := prices.2
          fillable_price := fillable
          protocol_liquidation_price := protocol }

/-- A stored price respects the sanity bounds: absent, or in `(0, 1e7]`. -/
def sanePrice : Option ℚ → Prop
  | none => True
  | some p => 0 < p ∧ p ≤ 10000000

/-- `_sanitize` output always respects the sanity bounds. -/
theorem sanitizePrice_sane (o : Option ℚ) : sanePrice (sanitizePrice o) := by
  cases o with
  | none => trivial
  | some p =>
    simp only [sanitizePrice]
    split_ifs with h1 h2
    · trivial
    · trivial
    · exact ⟨by linarith, by linarith⟩

/-- The protocol override keeps both stored prices sane when its three
inputs are sane. -/
theorem applyProtocolOverride_sane (i c pr : Option ℚ) (mm : String)
    (hi : sanePrice i) (hc : sanePrice c) (hp : sanePrice pr) :
    sanePrice (applyProtocolOverride i c pr mm).1 ∧
      sanePrice (applyProtocolOverride i c pr mm).2 := by
  cases pr with
  | none => exact ⟨hi, hc⟩
  | some p =>
    unfold applyProtocolOverride
    split_ifs <;> exact ⟨by first | exact hp | exact hi, by first | exact hp | exact hc⟩

/-- C5 (amended): for every position-metrics entry the stored isolated,
cross, and protocol-reported liquidation prices pass through `_sanitize`
and are therefore absent whenever the computed value is `≤ 0` or
`> 10,000,000`; the fillable price is stored without that filter (see the
counterexample). -/
theorem liquidation_prices_sanitized
    (equity maintenanceTotal : ℚ)
    (markets : Option (List (String × MarketData)))
    (maintDetails initDetails : List (String × ℚ))
    (market : String) (position : RawPosition) (pm : PosMetrics)
    (h : buildPositionMetrics equity markets maintenanceTotal maintDetails
        initDetails market position = some pm) :
    sanePrice pm.isolated_liquidation_price ∧
    sanePrice pm.cross_liquidation_price ∧
    sanePrice pm.protocol_liquidation_price := by
  unfold buildPositionMetrics at h
  split at h
  · exact absurd h (by simp)
  · dsimp only at h
    split at h
    · exact absurd h (by simp)
    · rw [Option.some.injEq] at h
      subst h
      dsimp only
      exact ⟨(applyProtocolOverride_sane _ _ _ _ (sanitizePrice_sane _)
          (sanitizePrice_sane _) (sanitizePrice_sane _)).1,
        (applyProtocolOverride_sane _ _ _ _ (sanitizePrice_sane _)
          (sanitizePrice_sane _) (sanitizePrice_sane _)).2,
        sanitizePrice_sane _⟩

/-- Closed witness for `liquidation_prices_sanitized` at a concrete
position (short 3 at oracle 3000, equity 1000). -/
def sanitizedWitnessMarket : MarketData :=
  { emptyMarketData with
      maintenance_margin_fraction := some (1 / 20)
      initial_margin_fraction := some (1 / 20)
      oracle_price := some 3000 }

/-- Closed witness position for `liquidation_prices_sanitized`. -/
def sanitizedWitnessPosition : RawPosition :=
  { emptyRawPosition with
      size := some 3
      side := some "SHORT"
      entryPrice := some 3000 }

/-- Closed witness for `liquidation_prices_sanitized`. -/
theorem liquidation_prices_sanitized_witness :
    ∃ pm : PosMetrics,
      buildPositionMetrics 1000 (some [("ETH-USD", sanitizedWitnessMarket)]) 450
        [("ETH-USD", 450)] [("ETH-USD", 450)] "ETH-USD" sanitizedWitnessPosition
        = some pm ∧
      (sanePrice pm.isolated_liquidation_price ∧
        sanePrice pm.cross_liquidation_price ∧
        sanePrice pm.protocol_liquidation_price) := by
  refine ⟨_, rfl, liquidation_prices_sanitized 1000 450
    (some [("ETH-USD", sanitizedWitnessMarket)]) [("ETH-USD", 450)]
    [("ETH-USD", 450)] "ETH-USD" sanitizedWitnessPosition _ rfl⟩

/-- The market table of the fillable-price counterexample: maintenance
fraction `0.5`, spread ratio `10`, bankruptcy adjustment `10`, oracle
`100`. -/
def fillableMarket : MarketData :=
  { emptyMarketData with
      maintenance_margin_fraction := some (1 / 2)
      initial_margin_fraction := some (1 / 20)
      oracle_price := some 100
      spread_to_mmr_ratio := some 10
      bankruptcy_adjustment := some 10 }

/-- The position of the fillable-price counterexample. -/
def fillablePosition : RawPosition :=
  { emptyRawPosition with
      size := some 1
      entryPrice := some 100 }

/-- C5 counterexample: with negative account equity (`Q` clamps to `0`)
and a large spread/bankruptcy product, the computed fillable price is
`100 * (1 - 50) = -4900 ≤ 0`, yet it is stored as-is in the position
metrics — the fillable price does not pass through the `≤ 0 / > 1e7`
sanity filter. -/
theorem fillable_price_not_sanitized_counterexample :
    ((buildPositionMetrics (-5) (some [("ETH-USD", fillableMarket)]) 50
        [("ETH-USD", 50)] [("ETH-USD", 5)] "ETH-USD" fillablePosition).map
      fun pm => pm.fillable_price) = some (some (-4900)) ∧
    ((-4900 : ℚ) ≤ 0) ∧ ¬ sanePrice (some (-4900)) := by
  refine ⟨?_, by norm_num, ?_⟩
  · norm_num [buildPositionMetrics, fillableMarket, fillablePosition,
      emptyRawPosition, emptyMarketData, getMarket, marketOraclePrice,
      resolveMarketFraction, defaultMaintenanceMarginFraction,
      calculateEffectiveImf, resolveInitialFraction,
      defaultInitialMarginFraction, calculateFillablePrice,
      calculateIsolatedLiquidationPrice, calculateCrossLiquidationPrice,
      sanitizePrice, applyProtocolOverride, resolveSignedSize,
      List.lookup, Option.orElse, Option.getD, Option.map, min_def, max_def, abs]
  · simp only [sanePrice]
    norm_num

/-- The account snapshot's reported equity field: absent (defaulting to
`"0"`), a parsed value, or a malformed string whose
`Decimal(str(...))` raises. -/
inductive RawField where
  | absent
  | value (q : ℚ)
  | malformed
deriving DecidableEq, Repr

/-- `Decimal(str(subaccount_data.get("equity", "0")))`: `0` when absent,
the value when parseable, an exception otherwise. -/
def parseEquity : RawField → Except Unit ℚ
  | .absent => .ok 0
  | .value q => .ok q
  | .malformed => .error ()

/-- One subaccount's raw snapshot as consumed by
`calculate_risk_metrics`. -/
structure SubaccountData where
  equity : RawField
  free_collateral : Option ℚ
  positions : List (String × RawPosition)
deriving DecidableEq, Repr

/-- The body of `calculate_risk_metrics` (lines 552-890, inside the
`try`): parse equity (this raises on a malformed field), total the
requirements, derive margin ratio / liquidation distance / free
collateral, build the per-position metrics, and apply the API-provided
per-position requirement overrides to the stored totals. -/
def calculateRiskMetricsBody (d : SubaccountData)
    (markets : Option (List (String × MarketData))) : Except Unit RiskMetricsE :=
  match parseEquity d.equity with
  | .error e => .error e
  | .ok equity =>
    let maintenance := calculateMaintenanceRequirement d.positions markets
    let initial := calculateInitialRequirement d.positions markets
    let freeCollateral := d.free_collateral.getD (equity - initial.1)
    let marginRatio := calculateMarginRatio equity maintenance.1
    let liquidationDistance := calculateLiquidationDistance marginRatio
    let positionMetrics := d.positions.filterMap fun mp =>
      (buildPositionMetrics equity markets maintenance.1 maintenance.2 initial.2
        mp.1 mp.2).map fun pm => (mp.1, pm)
    let rawMaintenance := d.positions.filterMap fun mp =>
      match mp.2.size with
      | none => none
      | some s => if s = 0 then none else mp.2.maintenanceMarginRequirement
    let rawInitial := d.positions.filterMap fun mp =>
      match mp.2.size with
      | none => none
      | some s => if s = 0 then none else mp.2.initialMarginRequirement
    let initialTotal := if rawInitial = [] then initial.1 else rawInitial.sum
    let freeCollateralFinal :=
      if rawInitial = [] then freeCollateral
      else d.free_collateral.getD (equity - rawInitial.sum)
    let maintenanceTotal := if rawMaintenance = [] then maintenance.1
      else rawMaintenance.sum
    .ok ⟨equity, maintenanceTotal, initialTotal, marginRatio,
      liquidationDistance, freeCollateralFinal, d.positions, positionMetrics⟩

/-- `RiskCalculator.calculate_risk_metrics`: the body wrapped in the
`try/except` of lines 552-904 — any internal error degrades to the safe
default metrics object instead of propagating. -/
def calculateRiskMetrics (d : SubaccountData)
    (markets : Option (List (String × MarketData))) : RiskMetricsE :=
  match calculateRiskMetricsBody d markets with
  | .ok m => m
  | .error _ => ⟨0, 0, 0, .posInf, .posInf, 0, [], []⟩

/-- C7: `calculate_risk_metrics` is a total function into `RiskMetricsE`
(it never propagates an error to the caller): it returns the body's
result when the body succeeds, and on any internal error it returns the
degenerate metrics object with equity `0`, zero requirements, infinite
margin ratio and liquidation distance, zero free collateral and empty
position maps. -/
theorem risk_metrics_never_raises (d : SubaccountData)
    (markets : Option (List (String × MarketData))) :
    (∀ m, calculateRiskMetricsBody d markets = .ok m →
      calculateRiskMetrics d markets = m) ∧
    (∀ err, calculateRiskMetricsBody d markets = .error err →
      calculateRiskMetrics d markets =
        ⟨0, 0, 0, .posInf, .posInf, 0, [], []⟩) := by
  constructor
  · intro m h
    simp [calculateRiskMetrics, h]
  · intro err h
    simp [calculateRiskMetrics, h]

/-- Closed witness for `risk_metrics_never_raises`: a snapshot whose
equity field is malformed makes the body raise and the wrapper return the
safe default. -/
theorem risk_metrics_never_raises_witness :
    calculateRiskMetrics ⟨.malformed, none, []⟩ none =
      ⟨0, 0, 0, .posInf, .posInf, 0, [], []⟩ :=
  (risk_metrics_never_raises ⟨.malformed, none, []⟩ none).2 () rfl

end DydxAlerts
